import Mathlib

/-!
Verification of the natural-language specification of `consbio/eems-pro`
against its single source file, `src/EEMS_Pro/version.py`.

The source is a changelog-style Python module: a sequence of
`__version__ = "..."` assignment lines (some commented out with a leading
`#`) interleaved with free-text `#` comment lines and blank lines.

We embed the file literally (its lines as strings), parse each line into
one of four syntactic kinds exactly as Python's lexer would see it, give
the Python execution semantics of the module (top-to-bottom rebinding of
the `__version__` name), and extract the spec's Release Records
(version, note, released) from the line sequence.
-/

namespace EEMSPro

/-- The literal lines of `src/EEMS_Pro/version.py`, in file order
(top line first).  The final empty string is the file's trailing newline. -/
def sourceLines : List String := [
    "__version__ = \"1.0.4\"",
    "",
    "# Pandas version 2.0.2 (which is distributed with later versions of ArcGIS Pro) has a bug described here: ",
    "# https://github.com/pandas-dev/pandas/issues/46178 ",
    "# This was causing an error during the SPDF join (merge), likely because the values in the CSVID field of the EEMS ",
    "# output CSV were being cast to floats during the pd.read_csv() call. ",
    "# The fix was to explicitly cast the CSVID field to an Int32 within the pd.read_csv() call. ",
    "",
    "__version__ = \"1.0.3\"",
    "",
    "# Use &MediumSpace; instead of &nbsp; in the command file metadata to allow text wrapping in custom web applications.     ",
    "__version__ = \"1.0.2\"",
    "",
    "# Fix NoneType error introduced by writing header to command file   ",
    "",
    "__version__ = \"1.0.1\"",
    "",
    "# Check for Non-ASCII Characters ",
    "",
    "__version__ = \"1.0.0\"",
    "",
    "# Production Release",
    "",
    "__version__ = \"0.9.0\"",
    "",
    "# Internal Release for BETA Testing",
    "",
    "#__version__ = \"0.0.3\"",
    "",
    "# Add ArcGIS Desktop Compatibility ",
    "",
    "#__version__ = \"0.0.2\"",
    "",
    "# Implement Spatially Enabled Data Frame/Pandas Join",
    "",
    "#__version__ = \"0.0.1\"",
    "",
    "# Initialize ArcGIS Pro Compatible Version  ",
    ""]

/-- Syntactic kind of one line of the module. -/
inductive Line
  | assign (v : String)           -- `__version__ = "v"` : an executed assignment
  | commentedAssign (v : String)  -- `#__version__ = "v"` : assignment disabled by `#`
  | comment (text : String)       -- any other line starting with `#`
  | blank                         -- empty / whitespace-only line
deriving DecidableEq, Repr

/-- The characters between the first pair of double quotes on a line
(the string literal of a `__version__` assignment). -/
def quotedPart (cs : List Char) : List Char :=
  ((cs.dropWhile (fun c => c ≠ '"')).drop 1).takeWhile (fun c => c ≠ '"')

/-- Head pattern of an executed assignment line. -/
def assignPat : List Char := "__version__ = \"".data

/-- Head pattern of a commented-out assignment line. -/
def commentedAssignPat : List Char := "#__version__ = \"".data

/-- Classify one source line by its leading characters. -/
def parseLine (s : String) : Line :=
  if List.isPrefixOf assignPat s.data then
    Line.assign (String.mk (quotedPart s.data))
  else if List.isPrefixOf commentedAssignPat s.data then
    Line.commentedAssign (String.mk (quotedPart s.data))
  else if List.isPrefixOf ['#'] s.data then
    Line.comment s
  else
    Line.blank

/-- The module as a sequence of parsed lines, in file order. -/
def moduleLines : List Line := sourceLines.map parseLine

/-- Python semantics of one line acting on the current binding of the
name `__version__` (`none` = not yet bound).  Only an uncommented
assignment rebinds the name; comments and blank lines are no-ops. -/
def execLine (env : Option String) : Line → Option String
  | Line.assign v => some v
  | _ => env

/-- Execute a line sequence top-to-bottom from a starting binding. -/
def runModule (env : Option String) (ls : List Line) : Option String :=
  ls.foldl execLine env

/-- The binding of `__version__` after the module's statements have all
been executed, starting from an empty namespace. -/
def finalVersion : Option String := runModule none moduleLines

/-- Reporting the current version: look up `__version__` after executing
the module; an unbound name would be a `NameError`. -/
def currentVersion : Except String String :=
  match finalVersion with
  | some v => Except.ok v
  | none => Except.error "NameError: name __version__ is not defined"

/-- The spec's Release Record: one historical version-and-rationale
entry of the changelog. -/
structure ReleaseRecord where
  version : String
  note : String
  released : Bool
deriving DecidableEq, Repr

/-- The free-text note attached below a version line: the comment lines
(blank lines skipped) up to the next assignment or commented assignment. -/
def noteOf : List Line → String
  | [] => ""
  | Line.comment t :: rest => t ++ noteOf rest
  | Line.blank :: rest => noteOf rest
  | Line.assign _ :: _ => ""
  | Line.commentedAssign _ :: _ => ""

/-- Extract the Release Records of a line sequence, in file order.
An uncommented assignment yields a released record, a commented-out
assignment an unreleased one; each takes the comment lines below it as
its note. -/
def records : List Line → List ReleaseRecord
  | [] => []
  | Line.assign v :: rest => ⟨v, noteOf rest, true⟩ :: records rest
  | Line.commentedAssign v :: rest => ⟨v, noteOf rest, false⟩ :: records rest
  | _ :: rest => records rest

/-- The Release Records of `version.py`, in file order (top line first,
i.e. most recently appended first). -/
def releaseRecords : List ReleaseRecord := records moduleLines

/-- The version strings of the log, in file order. -/
def recordVersions : List String := releaseRecords.map ReleaseRecord.version

/-- A non-empty all-digit character run (one decimal component). -/
def isDigitRun (cs : List Char) : Bool :=
  decide (cs ≠ []) && cs.all Char.isDigit

/-- Split a character list on `'.'` separators. -/
def splitOnDot : List Char → List (List Char)
  | [] => [[]]
  | c :: rest =>
      let tail := splitOnDot rest
      if c = '.' then [] :: tail
      else (c :: tail.headD []) :: tail.tail

/-- The spec's semantic-version predicate: a non-empty sequence of
dot-separated decimal non-negative integers. -/
def isSemVer (s : String) : Bool :=
  (splitOnDot s.data).all isDigitRun

/-- Numeric value of a decimal digit run. -/
def digitsToNat (cs : List Char) : Nat :=
  cs.foldl (fun acc c => 10 * acc + (c.toNat - 48)) 0

/-- The numeric components of a version string. -/
def verParts (s : String) : List Nat :=
  (splitOnDot s.data).map digitsToNat

/-- Strict lexicographic order on component lists. -/
def partsLt : List Nat → List Nat → Bool
  | [], [] => false
  | [], _ :: _ => true
  | _ :: _, [] => false
  | a :: as, b :: bs => decide (a < b) || (decide (a = b) && partsLt as bs)

/-- Strict semantic-version order on version strings. -/
def verLt (a b : String) : Bool := partsLt (verParts a) (verParts b)

/-- `pairwiseB r l` holds when `r` holds for every ordered pair of
elements of `l` (earlier element first). -/
def pairwiseB (r : String → String → Bool) : List String → Bool
  | [] => true
  | a :: rest => rest.all (r a) && pairwiseB r rest

/-- The released records of the log, in file order. -/
def releasedRecords : List ReleaseRecord :=
  releaseRecords.filter ReleaseRecord.released

/-- The version of the most recently appended released record: the file
is newest-first, so it is the first released record in file order. -/
def latestReleasedVersion : Option String :=
  (releasedRecords.map ReleaseRecord.version).head?

/-- Whether a parsed line is a commented-out `__version__` assignment. -/
def isCommentedLine : Line → Bool
  | Line.commentedAssign _ => true
  | _ => false

end EEMSPro

namespace EEMSPro

/-- C1: the claim asserts that `__version__` after executing the module
equals the most recently appended released record's version, "1.0.4".
This theorem evaluates the code at the (only) input: execution actually
leaves `__version__ = "0.9.0"`, the textually last uncommented
assignment, while the most recently appended released record is indeed
"1.0.4" — the code contradicts the evident intent (superseded 0.0.x
assignments were commented out, the 1.0.x ones were not). -/
theorem c1_code_behavior :
    finalVersion = some "0.9.0" ∧
    latestReleasedVersion = some "1.0.4" ∧
    (decide (finalVersion = latestReleasedVersion)) = false := by
  refine ⟨by decide, by decide, by decide⟩

/-- C2 counterexample: read top-to-bottom, the version strings of the
log are NOT strictly increasing (the file is newest-first): already the
second record "1.0.3" is not greater than the first, "1.0.4". -/
theorem c2_counterexample :
    pairwiseB verLt recordVersions = false ∧
    recordVersions.take 2 = ["1.0.4", "1.0.3"] ∧
    verLt "1.0.4" "1.0.3" = false := by
  refine ⟨by decide, by decide, by decide⟩

/-- C2 amended: read top-to-bottom the version strings are strictly
DECREASING under semantic-version order (each record's version is
strictly greater than every record BELOW it): the file is newest-first. -/
theorem c2_amended :
    pairwiseB (fun a b => verLt b a) recordVersions = true := by
  decide

/-- C3: executing the uncommented assignments top-to-bottom leaves
`__version__` bound to the textually last uncommented assignment,
"0.9.0"; commented-out assignments never change the binding, so removing
them does not alter the result. -/
theorem c3_final_binding :
    finalVersion = some "0.9.0" ∧
    (∀ env v, execLine env (Line.commentedAssign v) = env) ∧
    runModule none (moduleLines.filter (fun l => !isCommentedLine l)) =
      finalVersion := by
  refine ⟨by decide, fun env v => rfl, by decide⟩

/-- C4: a record is unreleased exactly when its assignment line carries
the leading `#`: the unreleased records are precisely 0.0.3, 0.0.2,
0.0.1 and the released ones precisely 1.0.4 down to 0.9.0. -/
theorem c4_released_flags :
    (releaseRecords.filter (fun r => !r.released)).map ReleaseRecord.version =
      ["0.0.3", "0.0.2", "0.0.1"] ∧
    releasedRecords.map ReleaseRecord.version =
      ["1.0.4", "1.0.3", "1.0.2", "1.0.1", "1.0.0", "0.9.0"] ∧
    (∀ s, isCommentedLine (parseLine s) = true → s.data.headD ' ' = '#') := by
  refine ⟨by decide, by decide, ?_⟩
  intro s h
  unfold parseLine at h
  split at h
  · exact Bool.noConfusion h
  · split at h
    · rename_i h2
      obtain ⟨t, ht⟩ := List.isPrefixOf_iff_prefix.mp h2
      rw [← ht]
      rfl
    · split at h
      · exact Bool.noConfusion h
      · exact Bool.noConfusion h

/-- Witness for C4 at a concrete commented-out line of the file. -/
theorem c4_released_flags_witness :
    ("#__version__ = \"0.0.3\"".data.headD ' ' = '#') :=
  c4_released_flags.2.2 "#__version__ = \"0.0.3\"" (by decide)

/-- C5: every Release Record's version string is a semantic version: a
non-empty sequence of dot-separated decimal non-negative integers. -/
theorem c5_semver_versions :
    releaseRecords.all (fun r => isSemVer r.version) = true := by
  decide

/-- C6: read bottom-to-top (oldest entry at the bottom of the file), the
version strings of the log are strictly increasing under component-wise
semantic-version order. -/
theorem c6_bottom_up_increasing :
    pairwiseB verLt recordVersions.reverse = true := by
  decide

/-- C7: evaluating the module and reporting the current version is total:
it yields a version string and the error branch (an unbound
`__version__`, Python's `NameError`) is unreachable. -/
theorem c7_total_no_error :
    (∃ v, currentVersion = Except.ok v) ∧
    currentVersion = Except.ok "0.9.0" := by
  exact ⟨⟨"0.9.0", rfl⟩, rfl⟩

/-- C8: historical records are retained, never overwritten: the nine
version strings of the log are pairwise distinct, so no entry shadows
another. -/
theorem c8_records_distinct :
    recordVersions.length = 9 ∧ recordVersions.Nodup := by
  refine ⟨by decide, by decide⟩

/-- C9: evaluating the module is deterministic and input-independent:
whatever `__version__` was bound to beforehand (any external state), the
module ends with the same binding, so any two evaluations agree. -/
theorem c9_input_independent :
    ∀ env₁ env₂ : Option String,
      runModule env₁ moduleLines = runModule env₂ moduleLines ∧
      runModule env₁ moduleLines = some "0.9.0" := by
  have h : ∀ env : Option String, runModule env moduleLines = some "0.9.0" :=
    fun env => rfl
  intro env₁ env₂
  exact ⟨(h env₁).trans (h env₂).symm, h env₁⟩

end EEMSPro
